import Mathlib

/-!
Verification development for the Mimica backend's core knowledge pipeline:
the TKF (Trusted Knowledge Fabric) admission engine (`src/backend/src/tkf_store.py`),
the event log (`src/backend/src/event_store.py`), the knowledge candidate
generator (`src/backend/src/knowledge_generator.py`) and the knowledge editor
orchestrator (`src/backend/src/tkf.py`).

The Python code is embedded shallowly: the in-memory stores become explicit
state records, each `async` method becomes a pure function from a state to an
`Except` result (a raised exception is `Except.error`), and every call to the
generative text service is abstracted as an oracle function passed in as an
argument.  The embedding is sequential: one `addUpdate` call runs to completion
before the next starts, which matches the code's behaviour for the properties
considered here (they are all stated per call or over sequential call lists).
-/

/-! ### Python string primitives

Faithful models of the Python `str` operations the stores use:
`str.strip`, `str.rstrip`, the `in` substring test and `str.replace`. -/

/-- Python `str.isspace` set for the ASCII whitespace characters recognised by
`str.strip()` with no argument: space, tab, newline, carriage return,
vertical tab and form feed. -/
def pySpace (c : Char) : Bool :=
  c = ' ' || c = '\t' || c = '\n' || c = '\r' || c = '\x0b' || c = '\x0c'

/-- Python `s.strip()`: drop leading and trailing whitespace. -/
def pyStrip (s : String) : String :=
  ⟨((s.data.dropWhile pySpace).reverse.dropWhile pySpace).reverse⟩

/-- Python `s.rstrip()`: drop trailing whitespace only. -/
def pyRstrip (s : String) : String :=
  ⟨(s.data.reverse.dropWhile pySpace).reverse⟩

/-- Python `sub in s` on character lists: `sub` occurs as a contiguous
substring of `s` (the empty string occurs in every string). -/
def pyContainsL : List Char → List Char → Bool
  | s, sub =>
    if sub.isPrefixOf s then true
    else
      match s with
      | [] => false
      | _ :: rest => pyContainsL rest sub

/-- Python `sub in s` on strings. -/
def pyContains (s sub : String) : Bool :=
  pyContainsL s.data sub.data

/-- Python `s.replace(old, new)` with empty `old`: `new` is inserted before
every character and after the last one. -/
def pyReplaceEmptyL (new : List Char) : List Char → List Char
  | [] => new
  | c :: rest => new ++ c :: pyReplaceEmptyL new rest

/-- Python `s.replace(old, new)` with non-empty `old = a :: olds`: scan left to
right, replacing each non-overlapping occurrence.  The `fuel` argument bounds
the number of scan steps; it is instantiated with the length of the scanned
list, which suffices because every step consumes at least one character, so
the fuel-exhausted branch is never reached from `pyReplace`. -/
def pyReplaceNEL (a : Char) (olds new : List Char) : Nat → List Char → List Char
  | _, [] => []
  | 0, s => s
  | fuel + 1, c :: rest =>
    if (a :: olds).isPrefixOf (c :: rest) then
      new ++ pyReplaceNEL a olds new fuel (rest.drop olds.length)
    else
      c :: pyReplaceNEL a olds new fuel rest

/-- Python `s.replace(old, new)` (all occurrences, left to right,
non-overlapping). -/
def pyReplace (s old new : String) : String :=
  match old.data with
  | [] => ⟨pyReplaceEmptyL new.data s.data⟩
  | a :: olds => ⟨pyReplaceNEL a olds new.data s.data.length s.data⟩

/-- Python `s.lower()` restricted to ASCII case mapping. -/
def pyLower (s : String) : String :=
  ⟨s.data.map Char.toLower⟩

example : pyStrip "  hi \n" = "hi" := by decide
example : pyRstrip "a b  " = "a b" := by decide
example : pyContains "abc" "" = true := by decide
example : pyContains "abc" "bc" = true := by decide
example : pyContains "abc" "cb" = false := by decide
example : pyReplace "abab" "ab" "X" = "XX" := by decide
example : pyReplace "aabb" "ab" "" = "ab" := by decide
example : pyReplace "abc" "" "X" = "XaXbXcX" := by decide
example : pyLower "TRUE!" = "true!" := by decide

/-! ### Data model (`src/backend/src/data_models.py`)

`TKFUpdate` and `TestEvent` as plain records; the open `metadata` dict becomes
an association list. -/

structure TKFUpdate where
  id : String
  created_at : String
  old_text : String
  new_text : String
  reasoning : String
  metadata : List (String × String)
deriving DecidableEq

structure TestEvent where
  id : String
  session_id : String
  persona_id : String
  group_id : String
  created_at : String
  sentiment : String
  screen_id : String
  reasoning_text : String
  action : String
  target_selector : String
deriving DecidableEq

/-! ### TKF admission engine (`src/backend/src/tkf_store.py`, `InMemoryTKFStore`) -/

/-- `MAX_TKF_UPDATES` in `tkf_store.py`. -/
def MAX_TKF_UPDATES : Nat := 100000

/-- The mutable state of `InMemoryTKFStore`: the update history `_updates`,
the capacity bound `_max_updates` and the knowledge text `_full_content`. -/
structure TKFState where
  updates : List TKFUpdate
  max_updates : Nat
  full_content : String
deriving DecidableEq

/-- The terminal outcome of one `add_update` call, read off from the branch
the code takes (the spec's per-update states). -/
inductive TKFOutcome where
  | APPENDED
  | REPLACED
  | REJECTED_EMPTY
  | REJECTED_DUPLICATE
  | REJECTED_CONFLICT
deriving DecidableEq

/-- Shared shape of the four LLM-backed boolean checks
(`InMemoryTKFStore._is_duplicate`, `InMemoryTKFStore._has_conflict` in
`tkf_store.py`, and `_is_duplicate_content`, `_has_conflictig_content` in
`tkf.py`): if the existing content is whitespace-only the check returns
`False` without calling the service; otherwise the service's free-text
response counts as `True` exactly when it contains the substring `"true"`
after lowercasing.  The oracle argument is the generative text service,
abstracted as a function of the two text arguments that vary in the prompt. -/
def llmBoolCheck (oracle : String → String → String) (new_text existing_content : String) : Bool :=
  if pyStrip existing_content = "" then false
  else pyContains (pyLower (oracle new_text existing_content)) "true"

/-- `InMemoryTKFStore.add_update`, sequential semantics: capacity check,
unconditional history append, empty-text rejection, literal replace path,
then the duplicate and conflict checks guarding the append path.  A raised
`TKFStoreFullError` is `Except.error ()`; otherwise the new state is paired
with the outcome of the branch taken. -/
def add_update (dupO confO : String → String → String) (st : TKFState) (u : TKFUpdate) :
    Except Unit (TKFState × TKFOutcome) :=
  if st.updates.length ≥ st.max_updates then
    .error ()
  else
    let st1 : TKFState := { st with updates := st.updates ++ [u] }
    let new_text := pyStrip u.new_text
    if new_text = "" then
      .ok (st1, .REJECTED_EMPTY)
    else if u.old_text ≠ "" ∧ pyContains st.full_content (pyStrip u.old_text) = true then
      .ok ({ st1 with
             full_content := pyReplace st.full_content (pyStrip u.old_text) new_text },
           .REPLACED)
    else
      let current_content := st.full_content
      if llmBoolCheck dupO new_text current_content then
        .ok (st1, .REJECTED_DUPLICATE)
      else if llmBoolCheck confO new_text current_content then
        .ok (st1, .REJECTED_CONFLICT)
      else
        .ok ({ st1 with
               full_content :=
                 if st.full_content ≠ "" then
                   pyRstrip st.full_content ++ "\n\n" ++ new_text
                 else new_text },
             .APPENDED)

/-- `InMemoryTKFStore.get_updates`: clamp `offset` and `limit` to
non-negative, slice `_updates[start : start + limit]`, return the page and
the total count. -/
def get_updates (st : TKFState) (offset limit : Int) : List TKFUpdate × Nat :=
  let total := st.updates.length
  let start := (max offset 0).toNat
  ((st.updates.drop start).take (max limit 0).toNat, total)

/-- A finite sequence of sequential `add_update` calls with fixed check
oracles; stops at the first raised error. -/
def run_updates (dupO confO : String → String → String) :
    TKFState → List TKFUpdate → Except Unit TKFState
  | st, [] => .ok st
  | st, u :: rest =>
    match add_update dupO confO st u with
    | .error e => .error e
    | .ok (st', _) => run_updates dupO confO st' rest

/-! ### Event log (`src/backend/src/event_store.py`, `InMemoryTestEventRepository`) -/

/-- `MAX_TEST_EVENTS` in `event_store.py`. -/
def MAX_TEST_EVENTS : Nat := 100000

/-- Append position `i` to the list stored under key `k`, creating the entry
if the key is missing (Python dict update preserving key insertion order). -/
def idxAdd (m : List (String × List Nat)) (k : String) (i : Nat) : List (String × List Nat) :=
  match m with
  | [] => [(k, [i])]
  | (k', v) :: rest => if k' = k then (k', v ++ [i]) :: rest else (k', v) :: idxAdd rest k i

/-- The mutable state of `InMemoryTestEventRepository`: primary sequence,
three secondary indices and the capacity bound. -/
structure EventState where
  events : List TestEvent
  group_id_index : List (String × List Nat)
  persona_id_index : List (String × List Nat)
  session_id_index : List (String × List Nat)
  max_events : Nat
deriving DecidableEq

/-- `InMemoryTestEventRepository.add_event`: capacity check, then append to
the primary sequence and all three secondary indices.  A raised
`EventStoreFullError` is `Except.error ()`. -/
def add_event (st : EventState) (e : TestEvent) : Except Unit EventState :=
  if st.events.length ≥ st.max_events then
    .error ()
  else
    let events := st.events ++ [e]
    let index := events.length - 1
    .ok { st with
          events := events
          group_id_index := idxAdd st.group_id_index e.group_id index
          persona_id_index := idxAdd st.persona_id_index e.persona_id index
          session_id_index := idxAdd st.session_id_index e.session_id index }

/-- `InMemoryTestEventRepository.get_events`: same pagination as
`get_updates`. -/
def get_events (st : EventState) (offset limit : Int) : List TestEvent × Nat :=
  let total := st.events.length
  let start := (max offset 0).toNat
  ((st.events.drop start).take (max limit 0).toNat, total)

/-! ### Knowledge editor orchestrator (`src/backend/src/tkf.py`, `update_tkf`) -/

/-- The `update_tkf` tool: snapshot the content, run the orchestrator's own
duplicate and conflict checks (`_is_duplicate_content`,
`_has_conflictig_content`), return `False` without touching the store when
either fires, otherwise build a `TKFUpdate` from the arguments and submit it
via `InMemoryTKFStore.add_update` (whose own oracles are passed separately),
returning `True`.  `uid` and `created` stand for the generated
`uuid4`/timestamp fields. -/
def update_tkf (odupO oconfO edupO econfO : String → String → String)
    (st : TKFState) (new_text reasoning old_text uid created : String) :
    Except Unit (TKFState × Bool) :=
  let content := st.full_content
  let is_duplicate := llmBoolCheck odupO new_text content
  let has_conflict := llmBoolCheck oconfO new_text content
  if is_duplicate || has_conflict then
    .ok (st, false)
  else
    match add_update edupO econfO st
        { id := uid, created_at := created, old_text := old_text,
          new_text := new_text, reasoning := reasoning, metadata := [] } with
    | .error e => .error e
    | .ok (st', _) => .ok (st', true)

/-! ### Knowledge candidate generator
(`src/backend/src/knowledge_generator.py`, `KnowledgeGenerator`) -/

/-- The loose boolean parse of a validator response:
`"true" in response.lower()`. -/
def contains_true (response : String) : Bool :=
  pyContains (pyLower response) "true"

/-- `KnowledgeGenerator._is_valid_knowledge_item`: one validator call on one
candidate.  The oracle models the generative text service as a function of
the candidate text (the only varying part of the prompt); `Except.error`
models the service call raising. -/
def is_valid_knowledge_item (validatorO : String → Except Unit String) (knowledge_item : String) :
    Except Unit Bool :=
  match validatorO knowledge_item with
  | .error e => .error e
  | .ok response => .ok (contains_true response)

/-- `KnowledgeGenerator._validate_knowledge`: validate the candidates in
order, keeping the accepted ones; an exception raised by a validator call
propagates, aborting the remaining candidates and the whole batch. -/
def validate_knowledge (validatorO : String → Except Unit String) :
    List String → Except Unit (List String)
  | [] => .ok []
  | knowledge_item :: rest =>
    match is_valid_knowledge_item validatorO knowledge_item with
    | .error e => .error e
    | .ok is_valid =>
      match validate_knowledge validatorO rest with
      | .error e => .error e
      | .ok validated => .ok (if is_valid then knowledge_item :: validated else validated)

/-! ### Seeding (`src/backend/src/tkf_store.py`, `_format_seed_content` / `seed`)

`_format_seed_content` begins with `json.loads(raw_content)` (the argument is
typed `str`, so the `isinstance` guard always takes the parsing branch) and
then sends the parsed data through a one-shot formatter call to the
generative text service.  The standard-library JSON parse is embedded as a
recursive-descent parser over the character list; it covers the JSON forms
seed content can take (strings with the common escapes, integers, arrays,
objects, the three literals, whitespace) and rejects everything else,
exactly like `json.loads` raising `JSONDecodeError`. -/

/-- JSON values as produced by the parse of seed content (number support
restricted to integers, which is all the seed artifacts use). -/
inductive Json where
  | null : Json
  | bool : Bool → Json
  | num : Int → Json
  | str : String → Json
  | arr : List Json → Json
  | obj : List (String × Json) → Json

/-- JSON insignificant whitespace. -/
def jsonWs (c : Char) : Bool :=
  c = ' ' || c = '\t' || c = '\n' || c = '\r'

/-- Skip insignificant whitespace. -/
def skipWs (s : List Char) : List Char :=
  s.dropWhile jsonWs

/-- Parse the body of a JSON string after the opening quote, returning the
decoded characters and the remaining input. -/
def parseStringBody : List Char → Except Unit (List Char × List Char)
  | [] => .error ()
  | '\x22' :: rest => .ok ([], rest)
  | '\x5c' :: [] => .error ()
  | '\x5c' :: e :: rest =>
    let c? : Except Unit Char :=
      if e = '\x22' then .ok '\x22'
      else if e = '\x5c' then .ok '\x5c'
      else if e = '/' then .ok '/'
      else if e = 'n' then .ok '\n'
      else if e = 't' then .ok '\t'
      else if e = 'r' then .ok '\r'
      else if e = 'b' then .ok (Char.ofNat 8)
      else if e = 'f' then .ok (Char.ofNat 12)
      else .error ()
    match c? with
    | .error err => .error err
    | .ok c =>
      match parseStringBody rest with
      | .error err => .error err
      | .ok (cs, r) => .ok (c :: cs, r)
  | c :: rest =>
    match parseStringBody rest with
    | .error err => .error err
    | .ok (cs, r) => .ok (c :: cs, r)

/-- Greedily consume decimal digits, accumulating their value. -/
def digitsAux (acc : Nat) : List Char → Nat × List Char
  | [] => (acc, [])
  | c :: rest =>
    if c.isDigit then digitsAux (acc * 10 + (c.toNat - 48)) rest
    else (acc, c :: rest)

mutual

/-- Parse one JSON value (after skipping leading whitespace).  `fuel` bounds
the recursion depth; `parseJson` instantiates it with the input length, which
suffices because every recursive call consumes at least one character. -/
def parseValue : Nat → List Char → Except Unit (Json × List Char)
  | 0, _ => .error ()
  | fuel + 1, s =>
    match skipWs s with
    | 't' :: 'r' :: 'u' :: 'e' :: rest => .ok (.bool true, rest)
    | 'f' :: 'a' :: 'l' :: 's' :: 'e' :: rest => .ok (.bool false, rest)
    | 'n' :: 'u' :: 'l' :: 'l' :: rest => .ok (.null, rest)
    | '\x22' :: rest =>
      (match parseStringBody rest with
       | .error err => .error err
       | .ok (cs, r) => .ok (.str ⟨cs⟩, r))
    | '[' :: rest =>
      (match skipWs rest with
       | ']' :: r => .ok (.arr [], r)
       | _ => parseElems fuel rest [])
    | '\x7b' :: rest =>
      (match skipWs rest with
       | '\x7d' :: r => .ok (.obj [], r)
       | _ => parseMembers fuel rest [])
    | '-' :: c :: rest =>
      if c.isDigit then
        let (n, r) := digitsAux (c.toNat - 48) rest
        .ok (.num (-(n : Int)), r)
      else .error ()
    | c :: rest =>
      if c.isDigit then
        let (n, r) := digitsAux (c.toNat - 48) rest
        .ok (.num (n : Int), r)
      else .error ()
    | [] => .error ()

/-- Parse the comma-separated elements of a non-empty JSON array, up to and
including the closing bracket. -/
def parseElems : Nat → List Char → List Json → Except Unit (Json × List Char)
  | 0, _, _ => .error ()
  | fuel + 1, s, acc =>
    match parseValue fuel s with
    | .error err => .error err
    | .ok (v, rest) =>
      match skipWs rest with
      | ',' :: r => parseElems fuel r (acc ++ [v])
      | ']' :: r => .ok (.arr (acc ++ [v]), r)
      | _ => .error ()

/-- Parse the comma-separated members of a non-empty JSON object, up to and
including the closing brace. -/
def parseMembers : Nat → List Char → List (String × Json) → Except Unit (Json × List Char)
  | 0, _, _ => .error ()
  | fuel + 1, s, acc =>
    match skipWs s with
    | '\x22' :: rest =>
      (match parseStringBody rest with
       | .error err => .error err
       | .ok (key, r1) =>
         match skipWs r1 with
         | ':' :: r2 =>
           (match parseValue fuel r2 with
            | .error err => .error err
            | .ok (v, r3) =>
              match skipWs r3 with
              | ',' :: r4 => parseMembers fuel r4 (acc ++ [(⟨key⟩, v)])
              | '\x7d' :: r4 => .ok (.obj (acc ++ [(⟨key⟩, v)]), r4)
              | _ => .error ())
         | _ => .error ())
    | _ => .error ()

end

/-- `json.loads`: parse one JSON document and require only whitespace to
follow it. -/
def parseJson (s : String) : Except Unit Json :=
  match parseValue (s.data.length + 1) s.data with
  | .error err => .error err
  | .ok (v, rest) => if skipWs rest = [] then .ok v else .error ()

/-- `InMemoryTKFStore.seed` composed with `_format_seed_content`: parse the
raw content as JSON (raising on failure), run the one-shot formatter call on
the parsed data (the oracle `formatter` models the generative text service),
and overwrite `_full_content` with the result.  The update history is not
touched. -/
def seed (formatter : Json → String) (st : TKFState) (raw_content : String) :
    Except Unit TKFState :=
  match parseJson raw_content with
  | .error err => .error err
  | .ok knowledge_data => .ok { st with full_content := formatter knowledge_data }

example :
    parseJson "[\x7b\x22statement\x22: \x22a\x22, \x22reasoning\x22: \x22b\x22\x7d]" =
      .ok (.arr [.obj [("statement", .str "a"), ("reasoning", .str "b")]]) := rfl

example : parseJson "Users prefer short forms" = .error () := rfl
example : parseJson "Hello, world!" = .error () := rfl
example : parseJson " \x22already formatted\x22 " = .ok (.str "already formatted") := rfl
example : parseJson "[1, -2, true, null]" = .ok (.arr [.num 1, .num (-2), .bool true, .null]) := rfl

/-! ### Theorems -/

/-- Under capacity, `add_update` always succeeds and appends exactly its
argument to the history, whatever branch decides the outcome; the capacity
bound is untouched. -/
theorem add_update_appends (dupO confO : String → String → String) (st : TKFState)
    (u : TKFUpdate) (hcap : st.updates.length < st.max_updates) :
    ∃ st' oc, add_update dupO confO st u = .ok (st', oc) ∧
      st'.updates = st.updates ++ [u] ∧ st'.max_updates = st.max_updates := by
  simp only [add_update]
  rw [if_neg (by omega : ¬ st.updates.length ≥ st.max_updates)]
  split_ifs with h1 h2 h3 h4 <;> exact ⟨_, _, rfl, rfl, rfl⟩

/-- C2: for every finite sequence of `addUpdate` calls on an engine that never
reaches its capacity limit, every call succeeds and the history afterwards
contains exactly one entry per call, in call order, whatever each call's
outcome was: its length equals the number of calls. -/
theorem C2_history_completeness (dupO confO : String → String → String) :
    ∀ (us : List TKFUpdate) (st : TKFState),
      st.updates.length + us.length ≤ st.max_updates →
      ∃ st', run_updates dupO confO st us = .ok st' ∧
        st'.updates = st.updates ++ us ∧
        st'.updates.length = st.updates.length + us.length := by
  intro us
  induction us with
  | nil =>
    intro st h
    exact ⟨st, rfl, by simp, by simp⟩
  | cons u rest ih =>
    intro st h
    simp only [List.length_cons] at h
    obtain ⟨st1, oc, heq, hupd, hmax⟩ :=
      add_update_appends dupO confO st u (by omega)
    obtain ⟨st', hrun, hupd', hlen'⟩ := ih st1 (by
      rw [hupd, hmax, List.length_append]
      simpa using by omega)
    refine ⟨st', ?_, ?_, ?_⟩
    · simp [run_updates, heq, hrun]
    · rw [hupd', hupd]
      simp
    · rw [hlen', hupd, List.length_append]
      simp
      omega

/-- C2 witness: two calls on a fresh store leave a two-entry history. -/
theorem C2_history_completeness_witness :
    ∃ st', run_updates (fun _ _ => "true") (fun _ _ => "false")
        ⟨[], 100000, ""⟩
        [⟨"u1", "t1", "", "fact one", "r1", []⟩, ⟨"u2", "t2", "", "", "r2", []⟩] = .ok st' ∧
      st'.updates = ([] : List TKFUpdate) ++
        [⟨"u1", "t1", "", "fact one", "r1", []⟩, ⟨"u2", "t2", "", "", "r2", []⟩] ∧
      st'.updates.length = ([] : List TKFUpdate).length + 2 :=
  C2_history_completeness (fun _ _ => "true") (fun _ _ => "false")
    [⟨"u1", "t1", "", "fact one", "r1", []⟩, ⟨"u2", "t2", "", "", "r2", []⟩]
    ⟨[], 100000, ""⟩ (by decide)

/-- C3: a call whose `new_text` is empty or whitespace-only is rejected as
empty: the only state change is the history entry, the full content is left
untouched, and the result does not depend on the semantic-check oracles or
on `old_text` (no check or replacement is performed). -/
theorem C3_empty_rejection (dupO confO : String → String → String) (st : TKFState)
    (u : TKFUpdate) (hcap : st.updates.length < st.max_updates)
    (hempty : pyStrip u.new_text = "") :
    add_update dupO confO st u =
      .ok ({ st with updates := st.updates ++ [u] }, .REJECTED_EMPTY) := by
  simp only [add_update]
  rw [if_neg (by omega : ¬ st.updates.length ≥ st.max_updates)]
  rw [if_pos hempty]

/-- C3 witness: a whitespace-only `new_text` with an `old_text` that does
occur in the content is still rejected as empty, content untouched. -/
theorem C3_empty_rejection_witness :
    add_update (fun _ _ => "true") (fun _ _ => "true")
        ⟨[], 100000, "Users prefer short forms"⟩
        ⟨"u1", "t1", "short", " \n ", "r1", []⟩ =
      .ok (⟨[⟨"u1", "t1", "short", " \n ", "r1", []⟩], 100000,
            "Users prefer short forms"⟩, .REJECTED_EMPTY) :=
  C3_empty_rejection (fun _ _ => "true") (fun _ _ => "true")
    ⟨[], 100000, "Users prefer short forms"⟩
    ⟨"u1", "t1", "short", " \n ", "r1", []⟩ (by decide) (by decide)

/-- The empty string is a substring of every string, as Python's `in` sees
it. -/
theorem pyContains_empty_sub (s : String) : pyContains s "" = true := by
  show pyContainsL s.data [] = true
  unfold pyContainsL
  cases s.data <;> rfl

/-- Replacing the empty pattern inserts the replacement before every
character and once at the end: for a scanned list of length `L` the
replacement is inserted `L + 1` times. -/
theorem pyReplaceEmptyL_length (new : List Char) :
    ∀ l : List Char, (pyReplaceEmptyL new l).length = l.length + (l.length + 1) * new.length := by
  intro l
  induction l with
  | nil => simp [pyReplaceEmptyL]
  | cons c rest ih =>
    simp only [pyReplaceEmptyL, List.length_append, List.length_cons, ih]
    ring

/-- C1 counterexample: with full content `"abab"`, `oldText = "ab"`,
`newText = "X"`, the replace path rewrites the content to `"XX"` — both
occurrences of the substring are replaced — and not to `"Xab"`, the result of
replacing it exactly once. -/
theorem C1_replace_once_counterexample :
    add_update (fun _ _ => "false") (fun _ _ => "false")
        ⟨[], 100000, "abab"⟩ ⟨"u1", "t1", "ab", "X", "r1", []⟩ =
      .ok (⟨[⟨"u1", "t1", "ab", "X", "r1", []⟩], 100000, "XX"⟩, .REPLACED) ∧
    ("XX" : String) ≠ "Xab" :=
  ⟨rfl, by decide⟩

/-- C1 (amended): whenever the trimmed `new_text` is non-empty, `old_text` is
non-empty and its trimmed form occurs in the current full content, the call
takes the replace path: the outcome is `REPLACED`, the content becomes the
Python `str.replace` of the trimmed `old_text` by the trimmed `new_text`
(every non-overlapping occurrence, left to right), and the result does not
mention the semantic-check oracles — the duplicate/conflict checks are never
invoked on that call, whatever the semantic relationship of the texts. -/
theorem C1_replace_path (dupO confO : String → String → String) (st : TKFState)
    (u : TKFUpdate) (hcap : st.updates.length < st.max_updates)
    (hnew : pyStrip u.new_text ≠ "") (hold : u.old_text ≠ "")
    (hsub : pyContains st.full_content (pyStrip u.old_text) = true) :
    add_update dupO confO st u =
      .ok ({ st with
             updates := st.updates ++ [u]
             full_content := pyReplace st.full_content (pyStrip u.old_text) (pyStrip u.new_text) },
           .REPLACED) := by
  simp only [add_update]
  rw [if_neg (by omega : ¬ st.updates.length ≥ st.max_updates)]
  split_ifs with h1 h2 <;>
    first
      | exact absurd h1 hnew
      | rfl
      | exact absurd ⟨hold, hsub⟩ h2

/-- C1 (amended) witness: the `"abab"`/`"ab"`/`"X"` instance of the replace
path. -/
theorem C1_replace_path_witness :
    add_update (fun _ _ => "false") (fun _ _ => "false")
        ⟨[], 100000, "abab"⟩ ⟨"u1", "t1", "ab", "X", "r1", []⟩ =
      .ok ({ updates := [⟨"u1", "t1", "ab", "X", "r1", []⟩], max_updates := 100000
             full_content := pyReplace "abab" (pyStrip "ab") (pyStrip "X") }, .REPLACED) :=
  C1_replace_path (fun _ _ => "false") (fun _ _ => "false")
    ⟨[], 100000, "abab"⟩ ⟨"u1", "t1", "ab", "X", "r1", []⟩
    (by decide) (by decide) (by decide) (by decide)

/-- C10: a non-empty but whitespace-only `old_text` together with a non-empty
trimmed `new_text` takes the replace path with the empty string as the
pattern — which occurs in every content — so the outcome is `REPLACED` and
the trimmed `new_text` is inserted at every character boundary: for content
of length `L`, it is inserted `L + 1` times (rather than the update being
rejected or appended once). -/
theorem C10_whitespace_old_text (dupO confO : String → String → String) (st : TKFState)
    (u : TKFUpdate) (hcap : st.updates.length < st.max_updates)
    (hold : u.old_text ≠ "") (holdws : pyStrip u.old_text = "")
    (hnew : pyStrip u.new_text ≠ "") :
    add_update dupO confO st u =
      .ok ({ st with
             updates := st.updates ++ [u]
             full_content := pyReplace st.full_content "" (pyStrip u.new_text) },
           .REPLACED) ∧
    (pyReplace st.full_content "" (pyStrip u.new_text)).length =
      st.full_content.length + (st.full_content.length + 1) * (pyStrip u.new_text).length := by
  constructor
  · have h := C1_replace_path dupO confO st u hcap hnew hold
      (by rw [holdws]; exact pyContains_empty_sub st.full_content)
    rwa [holdws] at h
  · exact pyReplaceEmptyL_length (pyStrip u.new_text).data st.full_content.data

/-- C10 witness: content `"abc"`, `old_text = " "` (whitespace-only),
`new_text = "X"`: outcome `REPLACED`, content `"XaXbXcX"` — four insertions
for a three-character content. -/
theorem C10_whitespace_old_text_witness :
    (add_update (fun _ _ => "false") (fun _ _ => "false")
        ⟨[], 100000, "abc"⟩ ⟨"u1", "t1", " ", "X", "r1", []⟩ =
      .ok ({ updates := [⟨"u1", "t1", " ", "X", "r1", []⟩], max_updates := 100000
             full_content := pyReplace "abc" "" (pyStrip "X") }, .REPLACED) ∧
     (pyReplace "abc" "" (pyStrip "X")).length = 3 + (3 + 1) * (pyStrip "X").length) ∧
    pyReplace "abc" "" (pyStrip "X") = "XaXbXcX" :=
  ⟨C10_whitespace_old_text (fun _ _ => "false") (fun _ _ => "false")
      ⟨[], 100000, "abc"⟩ ⟨"u1", "t1", " ", "X", "r1", []⟩
      (by decide) (by decide) (by decide) (by decide),
   by decide⟩

/-- C4: a call that reaches the append path — trimmed `new_text` non-empty,
replace path not taken, duplicate and conflict checks both false — yields
`APPENDED`, and the new content is the old content right-trimmed, a blank
line, then the trimmed `new_text`; when the old content was empty the new
content is exactly the trimmed `new_text`. -/
theorem C4_append_path (dupO confO : String → String → String) (st : TKFState)
    (u : TKFUpdate) (hcap : st.updates.length < st.max_updates)
    (hnew : pyStrip u.new_text ≠ "")
    (hnorep : ¬(u.old_text ≠ "" ∧ pyContains st.full_content (pyStrip u.old_text) = true))
    (hdup : llmBoolCheck dupO (pyStrip u.new_text) st.full_content = false)
    (hconf : llmBoolCheck confO (pyStrip u.new_text) st.full_content = false) :
    add_update dupO confO st u =
      .ok ({ st with
             updates := st.updates ++ [u]
             full_content :=
               if st.full_content = "" then pyStrip u.new_text
               else pyRstrip st.full_content ++ "\n\n" ++ pyStrip u.new_text },
           .APPENDED) := by
  simp only [add_update]
  rw [if_neg (by omega : ¬ st.updates.length ≥ st.max_updates), if_neg hnew, if_neg hnorep,
      if_neg (by simp [hdup]), if_neg (by simp [hconf])]
  by_cases hc : st.full_content = "" <;> simp [hc]

/-- C4 witness: one append onto non-empty content, and one onto empty
content (where the semantic checks short-circuit on the empty snapshot even
though the oracles would answer `"true"`). -/
theorem C4_append_path_witness :
    (add_update (fun _ _ => "no duplicate") (fun _ _ => "no conflict")
        ⟨[], 100000, "Existing fact. \n"⟩ ⟨"u1", "t1", "", "New fact", "r1", []⟩ =
      .ok ({ updates := [⟨"u1", "t1", "", "New fact", "r1", []⟩], max_updates := 100000
             full_content :=
               if ("Existing fact. \n" : String) = "" then pyStrip "New fact"
               else pyRstrip "Existing fact. \n" ++ "\n\n" ++ pyStrip "New fact" },
           .APPENDED)) ∧
    (add_update (fun _ _ => "true") (fun _ _ => "true")
        ⟨[], 100000, ""⟩ ⟨"u1", "t1", "", " New fact ", "r1", []⟩ =
      .ok ({ updates := [⟨"u1", "t1", "", " New fact ", "r1", []⟩], max_updates := 100000
             full_content :=
               if ("" : String) = "" then pyStrip " New fact "
               else pyRstrip "" ++ "\n\n" ++ pyStrip " New fact " },
           .APPENDED)) :=
  ⟨C4_append_path (fun _ _ => "no duplicate") (fun _ _ => "no conflict")
     ⟨[], 100000, "Existing fact. \n"⟩ ⟨"u1", "t1", "", "New fact", "r1", []⟩
     (by decide) (by decide) (by decide) (by decide) (by decide),
   C4_append_path (fun _ _ => "true") (fun _ _ => "true")
     ⟨[], 100000, ""⟩ ⟨"u1", "t1", "", " New fact ", "r1", []⟩
     (by decide) (by decide) (by decide) (by decide) (by decide)⟩

/-- C8: `addEvent` and `addUpdate` raise their store-full error exactly when
the primary sequence has already reached the capacity bound, whose default is
100,000; the error branch is decided on the untouched pre-state and returns
before any mutation, and a successful call appends exactly one entry (so the
failure is atomic: on error no event or update is stored and no other field
changes — in this embedding an erroring call yields no successor state at
all). -/
theorem C8_store_full_exact :
    (∀ (st : EventState) (e : TestEvent),
      add_event st e = .error () ↔ st.max_events ≤ st.events.length) ∧
    (∀ (st : EventState) (e : TestEvent) (st' : EventState),
      add_event st e = .ok st' →
        st'.events = st.events ++ [e] ∧ st.events.length < st.max_events) ∧
    (∀ (dupO confO : String → String → String) (st : TKFState) (u : TKFUpdate),
      add_update dupO confO st u = .error () ↔ st.max_updates ≤ st.updates.length) ∧
    (∀ (dupO confO : String → String → String) (st : TKFState) (u : TKFUpdate)
       (r : TKFState × TKFOutcome),
      add_update dupO confO st u = .ok r →
        r.1.updates = st.updates ++ [u] ∧ st.updates.length < st.max_updates) ∧
    MAX_TEST_EVENTS = 100000 ∧ MAX_TKF_UPDATES = 100000 := by
  refine ⟨fun st e => ?_, fun st e st' h => ?_, fun dupO confO st u => ?_,
    fun dupO confO st u r h => ?_, rfl, rfl⟩
  · unfold add_event
    split_ifs with h <;> simp [h]
  · unfold add_event at h
    split_ifs at h with hfull
    simp only [Except.ok.injEq] at h
    subst h
    exact ⟨rfl, by omega⟩
  · simp only [add_update]
    split_ifs with h <;> simp [h]
  · simp only [add_update] at h
    split_ifs at h with hfull <;>
      (simp only [Except.ok.injEq] at h; subst h; exact ⟨rfl, by omega⟩)

/-- C8 witness: a store of capacity 1 holding one entry rejects the next
write on both stores. -/
theorem C8_store_full_exact_witness :
    add_event ⟨[⟨"e1", "s", "p", "g", "t", "ok", "sc", "r", "click", "sel"⟩],
               [("g", [0])], [("p", [0])], [("s", [0])], 1⟩
        ⟨"e2", "s", "p", "g", "t", "ok", "sc", "r", "click", "sel"⟩ = .error () ∧
    add_update (fun _ _ => "x") (fun _ _ => "x")
        ⟨[⟨"u1", "t1", "", "fact", "r", []⟩], 1, "fact"⟩
        ⟨"u2", "t2", "", "other", "r", []⟩ = .error () :=
  ⟨(C8_store_full_exact.1 _ _).mpr (by decide),
   (C8_store_full_exact.2.2.1 (fun _ _ => "x") (fun _ _ => "x") _ _).mpr (by decide)⟩

/-- Length of one pagination page: `min limit (N - offset)` with truncated
subtraction (so `max 0` is built in). -/
theorem page_length {α : Type} (l : List α) (a b : Nat) :
    ((l.drop a).take b).length = min b (l.length - a) := by
  simp [List.length_take, List.length_drop]

/-- Every element of a pagination page comes from the primary sequence at
the offset-shifted position. -/
theorem page_getElem {α : Type} (l : List α) (a b i : Nat)
    (h : i < ((l.drop a).take b).length) :
    ((l.drop a).take b)[i]? = l[a + i]? := by
  have hb : i < b := by
    simp only [List.length_take, List.length_drop, lt_min_iff] at h
    exact h.1
  rw [List.getElem?_take_of_lt hb, List.getElem?_drop]

/-- C9: pagination of the event log and of the TKF update history.  For
non-negative `offset` and `limit` in the claim's range, the page has
`min (limit, max (0, N - offset))` entries (truncated subtraction), comes
from the primary sequence in insertion order starting at `offset`, and the
reported total is `N`; negative arguments are clamped to zero, and an
out-of-range offset yields an empty page rather than an error. -/
theorem C9_pagination :
    (∀ (st : EventState) (offset limit : Int),
      0 ≤ offset → offset ≤ (st.events.length : Int) + 10 →
      0 ≤ limit → limit ≤ (st.events.length : Int) + 10 →
      (get_events st offset limit).2 = st.events.length ∧
      (get_events st offset limit).1.length =
        min limit.toNat (st.events.length - offset.toNat) ∧
      (∀ i : Nat, i < (get_events st offset limit).1.length →
        (get_events st offset limit).1[i]? = st.events[offset.toNat + i]?) ∧
      ((st.events.length : Int) ≤ offset → (get_events st offset limit).1 = [])) ∧
    (∀ (st : EventState) (offset limit : Int),
      get_events st offset limit = get_events st (max offset 0) (max limit 0)) ∧
    (∀ (ts : TKFState) (offset limit : Int),
      0 ≤ offset → offset ≤ (ts.updates.length : Int) + 10 →
      0 ≤ limit → limit ≤ (ts.updates.length : Int) + 10 →
      (get_updates ts offset limit).2 = ts.updates.length ∧
      (get_updates ts offset limit).1.length =
        min limit.toNat (ts.updates.length - offset.toNat) ∧
      (∀ i : Nat, i < (get_updates ts offset limit).1.length →
        (get_updates ts offset limit).1[i]? = ts.updates[offset.toNat + i]?) ∧
      ((ts.updates.length : Int) ≤ offset → (get_updates ts offset limit).1 = [])) ∧
    (∀ (ts : TKFState) (offset limit : Int),
      get_updates ts offset limit = get_updates ts (max offset 0) (max limit 0)) := by
  refine ⟨fun st offset limit ho0 hoN hl0 hlN => ?_, fun st offset limit => ?_,
    fun ts offset limit ho0 hoN hl0 hlN => ?_, fun ts offset limit => ?_⟩
  · have hmo : max offset 0 = offset := max_eq_left ho0
    have hml : max limit 0 = limit := max_eq_left hl0
    refine ⟨rfl, ?_, ?_, ?_⟩
    · have h2 : (get_events st offset limit).1.length =
          min (max limit 0).toNat (st.events.length - (max offset 0).toNat) :=
        page_length st.events (max offset 0).toNat (max limit 0).toNat
      rw [hmo, hml] at h2
      exact h2
    · intro i hi
      have h3 := page_getElem st.events (max offset 0).toNat (max limit 0).toNat i hi
      show ((st.events.drop (max offset 0).toNat).take (max limit 0).toNat)[i]? =
        st.events[offset.toNat + i]?
      rw [show offset.toNat = (max offset 0).toNat from by rw [hmo]]
      exact h3
    · intro hout
      have hlen : st.events.length ≤ (max offset 0).toNat := by omega
      show (st.events.drop (max offset 0).toNat).take (max limit 0).toNat = []
      rw [List.drop_eq_nil_of_le hlen]
      exact List.take_nil
  · simp only [get_events]
    rw [show max (max offset 0) 0 = max offset 0 from max_eq_left (le_max_right _ _),
        show max (max limit 0) 0 = max limit 0 from max_eq_left (le_max_right _ _)]
  · have hmo : max offset 0 = offset := max_eq_left ho0
    have hml : max limit 0 = limit := max_eq_left hl0
    refine ⟨rfl, ?_, ?_, ?_⟩
    · have h2 : (get_updates ts offset limit).1.length =
          min (max limit 0).toNat (ts.updates.length - (max offset 0).toNat) :=
        page_length ts.updates (max offset 0).toNat (max limit 0).toNat
      rw [hmo, hml] at h2
      exact h2
    · intro i hi
      have h3 := page_getElem ts.updates (max offset 0).toNat (max limit 0).toNat i hi
      show ((ts.updates.drop (max offset 0).toNat).take (max limit 0).toNat)[i]? =
        ts.updates[offset.toNat + i]?
      rw [show offset.toNat = (max offset 0).toNat from by rw [hmo]]
      exact h3
    · intro hout
      have hlen : ts.updates.length ≤ (max offset 0).toNat := by omega
      show (ts.updates.drop (max offset 0).toNat).take (max limit 0).toNat = []
      rw [List.drop_eq_nil_of_le hlen]
      exact List.take_nil
  · simp only [get_updates]
    rw [show max (max offset 0) 0 = max offset 0 from max_eq_left (le_max_right _ _),
        show max (max limit 0) 0 = max limit 0 from max_eq_left (le_max_right _ _)]

/-- C9 witness: a three-event log paged with `offset = 1`, `limit = 5` yields
two events and total three. -/
theorem C9_pagination_witness :
    (get_events ⟨[⟨"e1", "s", "p", "g", "t", "ok", "sc", "r", "click", "sel"⟩,
                  ⟨"e2", "s", "p", "g", "t", "ok", "sc", "r", "click", "sel"⟩,
                  ⟨"e3", "s", "p", "g", "t", "ok", "sc", "r", "click", "sel"⟩],
                 [], [], [], 100000⟩ 1 5).1.length = 2 :=
  (C9_pagination.1 ⟨[⟨"e1", "s", "p", "g", "t", "ok", "sc", "r", "click", "sel"⟩,
                     ⟨"e2", "s", "p", "g", "t", "ok", "sc", "r", "click", "sel"⟩,
                     ⟨"e3", "s", "p", "g", "t", "ok", "sc", "r", "click", "sel"⟩],
                    [], [], [], 100000⟩ 1 5
    (by decide) (by decide) (by decide) (by decide)).2.1

/-- C5 counterexample: a raised validator call kills the whole batch.  With a
validator oracle that raises on the first candidate and accepts the second,
`_validate_knowledge` propagates the error — it returns no validated list at
all, instead of dropping the first candidate and keeping the second (which
validates fine on its own, as the second conjunct shows). -/
theorem C5_validator_failure_counterexample :
    validate_knowledge
        (fun item => if item = "candidate A" then .error () else .ok "true")
        ["candidate A", "candidate B"] = .error () ∧
    validate_knowledge
        (fun item => if item = "candidate A" then .error () else .ok "true")
        ["candidate B"] = .ok ["candidate B"] :=
  ⟨rfl, rfl⟩

/-- C5 (amended): a validator call that *returns* an ambiguous answer — one
whose lowercased text does not contain `"true"` — rejects that single
candidate and the rest of the batch is validated as if the candidate were
absent (fail closed, not fatal); but a validator call that *raises*
propagates the exception, aborting the whole batch. -/
theorem C5_validator_fail_closed (validatorO : String → Except Unit String)
    (knowledge_item : String) (rest : List String) :
    (∀ response, validatorO knowledge_item = .ok response → contains_true response = false →
      validate_knowledge validatorO (knowledge_item :: rest) =
        validate_knowledge validatorO rest) ∧
    (validatorO knowledge_item = .error () →
      validate_knowledge validatorO (knowledge_item :: rest) = .error ()) := by
  constructor
  · intro response hok hfalse
    have h1 : is_valid_knowledge_item validatorO knowledge_item = .ok false := by
      unfold is_valid_knowledge_item
      rw [hok]
      show Except.ok (contains_true response) = Except.ok false
      rw [hfalse]
    simp only [validate_knowledge, h1]
    cases hres : validate_knowledge validatorO rest <;> simp [hres]
  · intro herr
    have h1 : is_valid_knowledge_item validatorO knowledge_item = .error () := by
      unfold is_valid_knowledge_item
      rw [herr]
    simp only [validate_knowledge, h1]

/-- C5 (amended) witness: an `"unclear"` validator answer drops the first
candidate and leaves the rest of the batch to be validated. -/
theorem C5_validator_fail_closed_witness :
    validate_knowledge (fun _ => .ok "unclear") ["candidate A", "candidate B"] =
      validate_knowledge (fun _ => .ok "unclear") ["candidate B"] :=
  (C5_validator_fail_closed (fun _ => .ok "unclear") "candidate A" ["candidate B"]).1
    "unclear" rfl (by decide)

/-- C6 counterexample: `seed` does not accept a pre-formatted (non-JSON)
content string — `json.loads` raises on `"Hello, world!"`, the very string
the server's own startup seeds with — and a successful `seed` does not leave
the update history empty: it leaves it exactly as it was. -/
theorem C6_seed_counterexample :
    seed (fun _ => "formatted") ⟨[], 100000, ""⟩ "Hello, world!" = .error () ∧
    seed (fun _ => "formatted")
        ⟨[⟨"u1", "t1", "", "fact", "r", []⟩], 100000, "old"⟩ "[]" =
      .ok ⟨[⟨"u1", "t1", "", "fact", "r", []⟩], 100000, "formatted"⟩ ∧
    ([⟨"u1", "t1", "", "fact", "r", []⟩] : List TKFUpdate) ≠ [] :=
  ⟨rfl, rfl, by decide⟩

/-- C6 (amended): `seed(rawContent)` parses `rawContent` as JSON — a raw
content that is not valid JSON (such as pre-formatted prose) raises instead
of being accepted; when the parse succeeds (e.g. on a JSON list of
`statement`/`reasoning` facts) the one-shot formatter call runs on the parsed
data and its output becomes the full content; the update history is left
unchanged by seeding (in particular it is empty after seeding a fresh
store). -/
theorem C6_seed_behaviour (formatter : Json → String) (st : TKFState)
    (raw_content : String) :
    (∀ v, parseJson raw_content = .ok v →
      seed formatter st raw_content = .ok { st with full_content := formatter v }) ∧
    (parseJson raw_content = .error () →
      seed formatter st raw_content = .error ()) := by
  constructor
  · intro v hv
    unfold seed
    rw [hv]
  · intro hv
    unfold seed
    rw [hv]

/-- C6 (amended) witness: seeding a fresh store with a JSON fact list stores
the formatter's output and keeps the history empty. -/
theorem C6_seed_behaviour_witness :
    seed (fun _ => "formatted knowledge base") ⟨[], 100000, ""⟩
        "[\x7b\x22statement\x22: \x22a\x22, \x22reasoning\x22: \x22b\x22\x7d]" =
      .ok { updates := [], max_updates := 100000
            full_content := "formatted knowledge base" } :=
  (C6_seed_behaviour (fun _ => "formatted knowledge base") ⟨[], 100000, ""⟩
      "[\x7b\x22statement\x22: \x22a\x22, \x22reasoning\x22: \x22b\x22\x7d]").1
    (.arr [.obj [("statement", .str "a"), ("reasoning", .str "b")]]) rfl

/-- C7 counterexample: the orchestrator is not a pure dispatcher.  With its
own duplicate check answering `"true"`, `update_tkf` on a non-empty
`new_text` returns `False` and leaves the store untouched — no history entry
— while calling `addUpdate` directly with the same fields appends a history
entry and appends the text to the content.  The observable effects differ. -/
theorem C7_orchestrator_filters_counterexample :
    update_tkf (fun _ _ => "true") (fun _ _ => "false") (fun _ _ => "false") (fun _ _ => "false")
        ⟨[], 100000, "Existing fact"⟩ "New knowledge" "why" "" "u1" "t1" =
      .ok (⟨[], 100000, "Existing fact"⟩, false) ∧
    add_update (fun _ _ => "false") (fun _ _ => "false") ⟨[], 100000, "Existing fact"⟩
        ⟨"u1", "t1", "", "New knowledge", "why", []⟩ =
      .ok (⟨[⟨"u1", "t1", "", "New knowledge", "why", []⟩], 100000,
            "Existing fact\n\nNew knowledge"⟩, .APPENDED) :=
  ⟨rfl, rfl⟩

/-- C7 (amended): `update_tkf` first runs its own duplicate and conflict
checks against a snapshot of the content; when either fires it returns
`False` without submitting anything — content and history unchanged — and
only when both are false does it dispatch to the engine's `addUpdate`, in
which case its effect on content and history is exactly that of calling
`addUpdate` directly with the same fields. -/
theorem C7_orchestrator_dispatch (odupO oconfO edupO econfO : String → String → String)
    (st : TKFState) (new_text reasoning old_text uid created : String) :
    (llmBoolCheck odupO new_text st.full_content = false →
     llmBoolCheck oconfO new_text st.full_content = false →
     update_tkf odupO oconfO edupO econfO st new_text reasoning old_text uid created =
       (add_update edupO econfO st
          { id := uid, created_at := created, old_text := old_text,
            new_text := new_text, reasoning := reasoning, metadata := [] }).map
         (fun p => (p.1, true))) ∧
    ((llmBoolCheck odupO new_text st.full_content = true ∨
      llmBoolCheck oconfO new_text st.full_content = true) →
     update_tkf odupO oconfO edupO econfO st new_text reasoning old_text uid created =
       .ok (st, false)) := by
  constructor
  · intro hd hc
    simp only [update_tkf, hd, hc, Bool.or_self]
    rw [if_neg (by simp)]
    cases hres : add_update edupO econfO st
        { id := uid, created_at := created, old_text := old_text,
          new_text := new_text, reasoning := reasoning, metadata := [] } with
    | error e => simp [hres, Except.map]
    | ok p =>
      obtain ⟨st1, oc⟩ := p
      simp [hres, Except.map]
  · intro h
    simp only [update_tkf]
    rcases h with h | h <;> rw [h] <;> simp

/-- C7 (amended) witness: with all checks answering `"no"`, the
orchestrator's result is exactly the direct `addUpdate` result. -/
theorem C7_orchestrator_dispatch_witness :
    update_tkf (fun _ _ => "no") (fun _ _ => "no") (fun _ _ => "no") (fun _ _ => "no")
        ⟨[], 100000, "Existing fact"⟩ "New knowledge" "why" "" "u1" "t1" =
      (add_update (fun _ _ => "no") (fun _ _ => "no") ⟨[], 100000, "Existing fact"⟩
         { id := "u1", created_at := "t1", old_text := "", new_text := "New knowledge",
           reasoning := "why", metadata := [] }).map (fun p => (p.1, true)) :=
  (C7_orchestrator_dispatch (fun _ _ => "no") (fun _ _ => "no") (fun _ _ => "no")
      (fun _ _ => "no") ⟨[], 100000, "Existing fact"⟩ "New knowledge" "why" "" "u1" "t1").1
    (by decide) (by decide)
